import Mathlib

set_option maxRecDepth 4000

/-!
Verification development for the livestock weigh-in pipeline (`core.js`).

The JavaScript source is shallowly embedded: numbers become `ℚ` (the
pipeline's finite doubles; `NaN`/missing values become `none` in an
`Option`), UTC-midnight `Date` values become `Int` epoch-day numbers,
strings become `String`, and JS objects become structures.  Each
definition mirrors one source function and keeps its name.
-/

namespace Bovinos

/-! ### UTC calendar arithmetic (model of `Date.UTC` on day granularity)

All dates built by `core.js` are UTC midnights, so a date is modelled as
the number of days since 1970-01-01. -/

/-- Day number (days since 1970-01-01) of a civil date `y-m-d` with
`m ∈ 1..12`; Howard Hinnant's `days_from_civil` algorithm, which is what
the ECMAScript `MakeDay` computation produces for in-range months. -/
def daysFromCivil (y m d : Int) : Int :=
  let y' := if m ≤ 2 then y - 1 else y
  let era := y'.fdiv 400
  let yoe := y' - era * 400
  let mp := (m + 9).emod 12
  let doy := (153 * mp + 2) / 5 + d - 1
  let doe := yoe * 365 + yoe / 4 - yoe / 100 + doy
  era * 146097 + doe - 719468

/-- Model of `Date.UTC(y, monthIndex, d).getTime()` scaled to days:
ECMAScript normalises an arbitrary `monthIndex` by carrying into the
year, rolls an out-of-range day into the following months by plain
day-offset arithmetic, and maps a year argument `0..99` to `1900+y`. -/
def makeDayUTC (y monthIndex d : Int) : Int :=
  let y' := if 0 ≤ y ∧ y ≤ 99 then y + 1900 else y
  let ym := y' + monthIndex.fdiv 12
  let mn := monthIndex.emod 12
  daysFromCivil ym (mn + 1) 1 + (d - 1)

/-- Numeric value of an ASCII digit character. -/
def digitVal (c : Char) : Nat := c.toNat - 48

/-- Model of the regex `^(\d{4})-(\d{2})-(\d{2})$` of `parseDatePT`:
on success returns the captured `(year, month, day)` numbers. -/
def matchYMD : List Char → Option (Nat × Nat × Nat)
  | [y1, y2, y3, y4, s1, m1, m2, s2, d1, d2] =>
    if y1.isDigit && y2.isDigit && y3.isDigit && y4.isDigit && s1 == '-' &&
       m1.isDigit && m2.isDigit && s2 == '-' && d1.isDigit && d2.isDigit then
      some (1000 * digitVal y1 + 100 * digitVal y2 + 10 * digitVal y3 + digitVal y4,
            10 * digitVal m1 + digitVal m2,
            10 * digitVal d1 + digitVal d2)
    else none
  | _ => none

/-- Model of the regex `^(\d{2})[-\/](\d{2})[-\/](\d{4})$` of
`parseDatePT`: each of the two separators is independently `-` or `/`;
on success returns the captured `(day, month, year)` numbers. -/
def matchDMY : List Char → Option (Nat × Nat × Nat)
  | [d1, d2, s1, m1, m2, s2, y1, y2, y3, y4] =>
    if d1.isDigit && d2.isDigit && (s1 == '-' || s1 == '/') &&
       m1.isDigit && m2.isDigit && (s2 == '-' || s2 == '/') &&
       y1.isDigit && y2.isDigit && y3.isDigit && y4.isDigit then
      some (10 * digitVal d1 + digitVal d2,
            10 * digitVal m1 + digitVal m2,
            1000 * digitVal y1 + 100 * digitVal y2 + 10 * digitVal y3 + digitVal y4)
    else none
  | _ => none

/-- Model of `String.prototype.trim` (the `clean` helper) on character
lists: drop whitespace from both ends. -/
def trimChars (cs : List Char) : List Char :=
  ((cs.dropWhile Char.isWhitespace).reverse.dropWhile Char.isWhitespace).reverse

/-- Model of `parseDatePT` (`core.js` lines 31–52): trim, try the
`YYYY-MM-DD` regex then the day-first regex, build the date with
`Date.UTC` (month index is `month − 1`), and return `null` (`none`)
when neither regex matches.  The `Number.isFinite(dt.getTime())` guard
of the source never fails for four-digit years, so every match yields a
date. -/
def parseDatePT (s : String) : Option Int :=
  let t := trimChars s.data
  match matchYMD t with
  | some (y, mo, d) => some (makeDayUTC (y : Int) ((mo : Int) - 1) (d : Int))
  | none =>
    match matchDMY t with
    | some (d, mo, y) => some (makeDayUTC (y : Int) ((mo : Int) - 1) (d : Int))
    | none => none

/-- Modelled from the spec (for comparison with `parseDatePT`): the two
formats the spec says are accepted — `YYYY-MM-DD`, and the day-first
form "using either all hyphens or all slashes". -/
def specDateFormats (s : String) : Bool :=
  let cs := trimChars s.data
  let dmyWith := fun (sep : Char) (l : List Char) =>
    match l with
    | [d1, d2, s1, m1, m2, s2, y1, y2, y3, y4] =>
      d1.isDigit && d2.isDigit && s1 == sep && m1.isDigit && m2.isDigit &&
      s2 == sep && y1.isDigit && y2.isDigit && y3.isDigit && y4.isDigit
    | _ => false
  (matchYMD cs).isSome || dmyWith '-' cs || dmyWith '/' cs

/-- Model of `daysBetweenUTC` on two present UTC-midnight dates: the
source floors the millisecond difference over 86 400 000, which is exact
here because both operands are midnights. -/
def daysBetweenUTC (a b : Int) : Int := b - a

example : daysFromCivil 1970 1 1 = 0 := by decide
example : daysFromCivil 2024 3 2 = 19784 := by decide
example : parseDatePT "31-02-2024" = some 19784 := by decide
example : parseDatePT "2024-01-05" = some (daysFromCivil 2024 1 5) := by decide
example : parseDatePT " 05/01/2024 " = some (daysFromCivil 2024 1 5) := by decide
example : parseDatePT "05/01-2024" = some (daysFromCivil 2024 1 5) := by decide
example : parseDatePT "5-1-2024" = none := by decide
example : specDateFormats "31-12/2024" = false := by decide

/-! ### Classification and growth-factor rules (`core.js` lines 84–114) -/

/-- Model of `clean(s).toUpperCase()` as used on the `sexo` field. -/
def cleanUpper (s : String) : String :=
  ⟨(trimChars s.data).map Char.toUpper⟩

/-- Model of `performanceStatus` (lines 85–91): result is
`(label, cssClass, sortRank, bucket)`; a missing individual or group
rate, or a non-positive group rate, yields the no-history row. -/
def performanceStatus (gmdInd gmdMediaGrupo : Option ℚ) : String × String × Int × String :=
  match gmdInd, gmdMediaGrupo with
  | some gi, some gm =>
    if gm ≤ 0 then ("— (sem histórico)", "muted", 9, "none")
    else
      let r := gi / gm
      if 95 / 100 ≤ r then ("🟢 Normal", "ok", 3, "g")
      else if 80 / 100 ≤ r then ("🟡 A vigiar", "warn", 2, "o")
      else ("🔴 Atrasado", "bad", 1, "r")
  | _, _ => ("— (sem histórico)", "muted", 9, "none")

/-- Model of `confidenceByDays` (lines 92–97). -/
def confidenceByDays (days : Option Int) : String × String :=
  match days with
  | none => ("—", "muted")
  | some d => if d < 14 then ("Alta", "ok") else if d < 35 then ("Média", "warn") else ("Baixa", "bad")

/-- Model of `factorSexo` (line 98). -/
def factorSexo (sexo : String) : ℚ :=
  if cleanUpper sexo = "F" then 92 / 100 else 1

/-- Model of `factorMaturidade` (lines 99–105). -/
def factorMaturidade (peso : ℚ) (sexo : String) : ℚ :=
  let limiar : ℚ := if cleanUpper sexo = "F" then 460 else 520
  if peso < limiar then 1
  else if peso < limiar + 60 then 9 / 10
  else 8 / 10

/-- Model of `factorFromTempMean` (lines 108–114); `none` is the `NaN`
mean of a failed weather lookup. -/
def factorFromTempMean (t : Option ℚ) : ℚ :=
  match t with
  | none => 95 / 100
  | some v => if v ≤ 20 then 1 else if v ≤ 25 then 95 / 100 else if v ≤ 30 then 85 / 100 else 7 / 10

/-! ### Forecast helpers (`core.js` lines 207–221) -/

/-- Model of `pickGmdUsed` (lines 208–210): the real group rate is used
only when it is finite and strictly positive. -/
def pickGmdUsed (realGmd : Option ℚ) (fallback : ℚ) : ℚ :=
  match realGmd with
  | some g => if 0 < g then g else fallback
  | none => fallback

/-- Model of `classifyReady` (lines 211–216). -/
def classifyReady (pesoEst alvo : Option ℚ) : String × String :=
  match pesoEst, alvo with
  | some p, some a =>
    if a ≤ p then ("Pronto ✅", "ok")
    else if a - 20 ≤ p then ("Quase lá 🟡", "warn")
    else ("Em engorda", "muted")
  | _, _ => ("—", "muted")

/-- Model of `calcDaysToTarget` (lines 217–221): `NaN` (`none`) when a
value is missing or the rate is non-positive, `0` at or above target,
else the linear estimate. -/
def calcDaysToTarget (pesoEst alvo gmd : Option ℚ) : Option ℚ :=
  match pesoEst, alvo, gmd with
  | some p, some a, some g =>
    if g ≤ 0 then none
    else if a ≤ p then some 0
    else some ((a - p) / g)
  | _, _, _ => none

/-! ### Weather enrichment (`core.js` lines 150–182)

`getTempMeanForPeriod` is asynchronous only at the `fetch` boundary, so
it is embedded as a pure function of the cache and of the outcome the
network would deliver for this request.  The persistent cache map
becomes an association list; the returned `Bool` records whether an
external request was issued. -/

/-- A weather cache entry: mean temperature (`none` models the `NaN`
failure sentinel) and the derived climate factor. -/
structure MeteoPack where
  tmean : Option ℚ
  factor : ℚ
deriving DecidableEq

/-- Outcome of the HTTP fetch for one date range: a 2xx response with a
daily series, or a failure (timeout, transport error, non-2xx — the
source turns a non-`ok` response into a thrown error, caught by the
same handler). -/
inductive FetchOutcome
  | success (temps : List ℚ)
  | failure
deriving DecidableEq

/-- The failure entry cached by both `catch` paths: `NaN` mean and the
neutral factor `0.95`. -/
def failPack : MeteoPack := ⟨none, 95 / 100⟩

/-- Model of `getTempMeanForPeriod`: on a cache hit return the entry
with no request; on a miss issue one request, turn an empty series or a
failure into `failPack`, cache the entry and return it. -/
def getTempMeanForPeriod (meteoCacheMap : List (String × MeteoPack)) (key : String)
    (outcome : FetchOutcome) : MeteoPack × List (String × MeteoPack) × Bool :=
  match meteoCacheMap.lookup key with
  | some pack => (pack, meteoCacheMap, false)
  | none =>
    let pack :=
      match outcome with
      | .success temps =>
        if temps.isEmpty then failPack
        else
          let tmean := temps.sum / (temps.length : ℚ)
          ⟨some tmean, factorFromTempMean (some tmean)⟩
      | .failure => failPack
    (pack, (key, pack) :: meteoCacheMap, true)

/-! ### CSV header resolution (`core.js` lines 309–318) -/

/-- Model of `header.indexOf(name) >= 0 ? header.indexOf(name) : fb`. -/
def jsIdxOr (header : List String) (name : String) (fb : Nat) : Nat :=
  match header.findIdx? (· == name) with
  | some i => i
  | none => fb

/-- Resolved column positions for the seven fields. -/
structure ColIdx where
  animal : Nat
  sexo : Nat
  grupo : Nat
  dant : Nat
  pant : Nat
  datual : Nat
  patual : Nat
deriving DecidableEq

/-- Model of the column-resolution block (lines 312–318): each field
uses its header position when the name is present, else its fixed
fallback position. -/
def resolveCols (header : List String) : ColIdx :=
  ⟨jsIdxOr header "animal_id" 0,
   jsIdxOr header "sexo" 2,
   jsIdxOr header "grupo" 3,
   jsIdxOr header "data_peso_anterior" 4,
   jsIdxOr header "peso_anterior" 5,
   jsIdxOr header "data_peso_atual" 6,
   jsIdxOr header "peso_atual" 7⟩

/-- The seven resolved positions in the field order of the source. -/
def colList (c : ColIdx) : List Nat :=
  [c.animal, c.sexo, c.grupo, c.dant, c.pant, c.datual, c.patual]

example : performanceStatus (some 1) (some 1) = ("🟢 Normal", "ok", 3, "g") := by with_unfolding_all decide
example : performanceStatus (some (79/100)) (some 1) = ("🔴 Atrasado", "bad", 1, "r") := by with_unfolding_all decide
example : factorSexo " f " = 92 / 100 := by with_unfolding_all decide
example : factorMaturidade 470 "F" = 9 / 10 := by with_unfolding_all decide
example : calcDaysToTarget (some 600) (some 620) (some 2) = some 10 := by with_unfolding_all decide
example : colList (resolveCols []) = [0, 2, 3, 4, 5, 6, 7] := by with_unfolding_all decide
example : (getTempMeanForPeriod [] "a|b" .failure).1 = failPack := by with_unfolding_all decide
example : (getTempMeanForPeriod [] "a|b" (.success [10, 20])).1 = ⟨some 15, 1⟩ := by with_unfolding_all decide

/-! ### JS sort comparators

Each `Array.prototype.sort` call of the source uses a comparator of the
shape `k1 || k2 || k3` that returns a negative, zero or positive number.
`a` may precede `b` exactly when the comparator is `≤ 0`, which for such
a chain means: strictly smaller on the first key, or equal there and
strictly smaller on the second, or equal there and `≤` on the third
(`localeCompare` is modelled as code-unit string comparison).  `lex3Le`
is that ordering for key functions into linear orders. -/

def lex3Le {X A B C : Type} [LinearOrder A] [LinearOrder B] [LinearOrder C]
    (f : X → A) (g : X → B) (h : X → C) (a b : X) : Bool :=
  if f a ≠ f b then decide (f a < f b)
  else if g a ≠ g b then decide (g a < g b)
  else decide (h a ≤ h b)

theorem lex3Le_iff {X A B C : Type} [LinearOrder A] [LinearOrder B] [LinearOrder C]
    (f : X → A) (g : X → B) (h : X → C) (a b : X) :
    lex3Le f g h a b = true ↔
      f a < f b ∨ (f a = f b ∧ (g a < g b ∨ (g a = g b ∧ h a ≤ h b))) := by
  unfold lex3Le
  by_cases h1 : f a = f b
  · by_cases h2 : g a = g b
    · simp [h1, h2]
    · simp [h1, h2]
  · simp [h1]

theorem lex3Le_trans {X A B C : Type} [LinearOrder A] [LinearOrder B] [LinearOrder C]
    {f : X → A} {g : X → B} {h : X → C} {a b c : X}
    (hab : lex3Le f g h a b = true) (hbc : lex3Le f g h b c = true) :
    lex3Le f g h a c = true := by
  rw [lex3Le_iff] at hab hbc ⊢
  rcases hab with h1 | ⟨e1, hab⟩
  · rcases hbc with h2 | ⟨e2, _⟩
    · exact Or.inl (lt_trans h1 h2)
    · exact Or.inl (e2 ▸ h1)
  · rcases hbc with h2 | ⟨e2, hbc⟩
    · exact Or.inl (e1 ▸ h2)
    · refine Or.inr ⟨e1.trans e2, ?_⟩
      rcases hab with h3 | ⟨e3, hab⟩
      · rcases hbc with h4 | ⟨e4, _⟩
        · exact Or.inl (lt_trans h3 h4)
        · exact Or.inl (e4 ▸ h3)
      · rcases hbc with h4 | ⟨e4, hbc⟩
        · exact Or.inl (e3 ▸ h4)
        · exact Or.inr ⟨e3.trans e4, le_trans hab hbc⟩

theorem lex3Le_total {X A B C : Type} [LinearOrder A] [LinearOrder B] [LinearOrder C]
    (f : X → A) (g : X → B) (h : X → C) (a b : X) :
    lex3Le f g h a b = true ∨ lex3Le f g h b a = true := by
  rw [lex3Le_iff, lex3Le_iff]
  rcases lt_trichotomy (f a) (f b) with h1 | h1 | h1
  · exact Or.inl (Or.inl h1)
  · rcases lt_trichotomy (g a) (g b) with h2 | h2 | h2
    · exact Or.inl (Or.inr ⟨h1, Or.inl h2⟩)
    · rcases le_total (h a) (h b) with h3 | h3
      · exact Or.inl (Or.inr ⟨h1, Or.inr ⟨h2, h3⟩⟩)
      · exact Or.inr (Or.inr ⟨h1.symm, Or.inr ⟨h2.symm, h3⟩⟩)
    · exact Or.inr (Or.inr ⟨h1.symm, Or.inl h2⟩)
  · exact Or.inr (Or.inl h1)

/-! ### Ingestion: rows and the per-animal loop (`core.js` lines 322–512) -/

/-- Model of a parsed CSV row (the object pushed at line 353).
Unparseable dates/weights are `none`. -/
structure Row where
  animal : String
  sexo : String
  grupo : String
  dAnt : Option Int
  pAnt : Option ℚ
  dAtual : Option Int
  pAtual : Option ℚ
  gmdInd : Option ℚ
deriving DecidableEq

/-- Model of the growth-rate-sample computation (lines 338–347): the
sample exists only when both dates and both weights parsed and the
elapsed days are strictly positive. -/
def computeGmdInd (dAnt : Option Int) (pAnt : Option ℚ) (dAtual : Option Int)
    (pAtual : Option ℚ) : Option ℚ :=
  match dAnt, dAtual, pAnt, pAtual with
  | some da, some dc, some pa, some pc =>
    let d := daysBetweenUTC da dc
    if 0 < d then some ((pc - pa) / (d : ℚ)) else none
  | _, _, _, _ => none

/-- Model of one entry of `animalsOut`.  Display strings that merely
format a number or date (`pesoAtual`, `dataAtual`, `temp`, `estimado`)
are modelled by the underlying value, `"—"` by `none`. -/
structure AnimalOut where
  sortKey : Int
  animal : String
  grupo : String
  sexo : String
  pesoAtual : Option ℚ
  dataAtual : Option Int
  temp : Option ℚ
  fatorClima : Option ℚ
  estKg : Option ℚ
  conf : String
  confClass : String
  estado : String
  estadoClass : String
  bucket : String
deriving DecidableEq

/-- Model of one `groupAgg` accumulator object (lines 445–454). -/
structure GroupAgg where
  name : String
  n : Nat
  m : Nat
  f : Nat
  sumPesoM : ℚ
  sumPesoF : ℚ
  sumEstM : ℚ
  sumEstF : ℚ
  sumGmdM : ℚ
  sumGmdF : ℚ
  nGmdM : Nat
  nGmdF : Nat
  sumTemp : ℚ
  nTemp : Nat
  ok : Nat
  warn : Nat
  bad : Nat
deriving DecidableEq

/-- The freshly created accumulator for group `g` (line 446). -/
def initAgg (g : String) : GroupAgg :=
  ⟨g, 0, 0, 0, 0, 0, 0, 0, 0, 0, 0, 0, 0, 0, 0, 0, 0⟩

/-- Model of a JS object map update `groupAgg[g] = v`: replace the
binding in place, appending a new one at the end (JS string-keyed
objects preserve insertion order). -/
def aggSet : List (String × GroupAgg) → String → GroupAgg → List (String × GroupAgg)
  | [], g, v => [(g, v)]
  | (k, w) :: t, g, v => if k = g then (g, v) :: t else (k, w) :: aggSet t g v

/-- The base-rate selection performed at line 422,
`Number.isFinite(r.gmdInd) ? r.gmdInd : (gmdEstimativaGrupo[r.grupo] ?? fallback)`:
the animal's own sample whenever it is a number — regardless of its
sign — else the group estimate, else the fallback. -/
def gmdBaseCode (gmdInd grupoEst : Option ℚ) (fallback : ℚ) : ℚ :=
  match gmdInd with
  | some gi => gi
  | none => grupoEst.getD fallback

/-- Modelled from the spec (for comparison with `gmdBaseCode`): the
claimed base-rate rule — the sample only when finite and strictly
greater than 0, else the group estimate, else the fallback. -/
def gmdBaseSpec (gmdInd grupoEst : Option ℚ) (fallback : ℚ) : ℚ :=
  match gmdInd with
  | some gi => if 0 < gi then gi else grupoEst.getD fallback
  | none => grupoEst.getD fallback

/-- The per-run context consumed by the row loop: the fixed `todayUTC`,
the configured fallback rate, the two per-group rate maps computed
before the loop, and the (already resolved) weather cache read through
`getTempMeanForPeriod` for the range `(dAtual, today)`. -/
structure Ctx where
  todayUTC : Int
  fallbackGmd : ℚ
  gmdMediaGrupo : String → Option ℚ
  gmdEstimativaGrupo : String → Option ℚ
  meteo : Int → MeteoPack

/-- The loop state of lines 393–395. -/
structure Accum where
  animalsOut : List AnimalOut
  groupAgg : List (String × GroupAgg)
  okRows : Nat
  badRows : Nat
deriving DecidableEq

/-- The incomplete-row result pushed at lines 401–411 (all display
fields are the `"—"` placeholder, `fatorClima` and `estKg` are `NaN`). -/
def failOut (r : Row) : AnimalOut :=
  { sortKey := 99, animal := r.animal, grupo := r.grupo, sexo := r.sexo,
    pesoAtual := none, dataAtual := none, temp := none, fatorClima := none,
    estKg := none, conf := "—", confClass := "muted",
    estado := "—", estadoClass := "muted", bucket := "none" }

/-- Model of one iteration of the row loop (lines 397–479).  A row
without a parseable current date or current weight only counts a
failure and records `failOut`; a complete row is projected, classified
and folded into its group's accumulator.  (`Number.isFinite(estKg)` is
always true over `ℚ`, so the increment guards of lines 463 and 466 are
taken.) -/
def stepRow (ctx : Ctx) (acc : Accum) (r : Row) : Accum :=
  match r.dAtual, r.pAtual with
  | some dAtual, some pAtual =>
    let daysSince := daysBetweenUTC dAtual ctx.todayUTC
    let cc := confidenceByDays (some daysSince)
    let meteo := ctx.meteo dAtual
    let fc := meteo.factor
    let gmdBase := gmdBaseCode r.gmdInd (ctx.gmdEstimativaGrupo r.grupo) ctx.fallbackGmd
    let gmdFinal := gmdBase * factorSexo r.sexo * factorMaturidade pAtual r.sexo * fc
    let estKg := pAtual + gmdFinal * (daysSince : ℚ)
    let ps := performanceStatus r.gmdInd (ctx.gmdMediaGrupo r.grupo)
    let out : AnimalOut :=
      { sortKey := ps.2.2.1, animal := r.animal, grupo := r.grupo, sexo := r.sexo,
        pesoAtual := some pAtual, dataAtual := some dAtual,
        temp := meteo.tmean, fatorClima := some fc, estKg := some estKg,
        conf := cc.1, confClass := cc.2,
        estado := ps.1, estadoClass := ps.2.1, bucket := ps.2.2.2 }
    let g := if r.grupo = "" then "—" else r.grupo
    let ga := (acc.groupAgg.lookup g).getD (initAgg g)
    let ga := { ga with n := ga.n + 1 }
    let sx := cleanUpper r.sexo
    let ga :=
      if sx = "M" then
        { ga with m := ga.m + 1, sumPesoM := ga.sumPesoM + pAtual, sumEstM := ga.sumEstM + estKg }
      else if sx = "F" then
        { ga with f := ga.f + 1, sumPesoF := ga.sumPesoF + pAtual, sumEstF := ga.sumEstF + estKg }
      else ga
    let ga :=
      match meteo.tmean with
      | some t => { ga with sumTemp := ga.sumTemp + t, nTemp := ga.nTemp + 1 }
      | none => ga
    let ga :=
      match r.gmdInd with
      | some gi =>
        let ga :=
          if sx = "M" then { ga with sumGmdM := ga.sumGmdM + gi, nGmdM := ga.nGmdM + 1 }
          else if sx = "F" then { ga with sumGmdF := ga.sumGmdF + gi, nGmdF := ga.nGmdF + 1 }
          else ga
        if ps.2.2.2 = "g" then { ga with ok := ga.ok + 1 }
        else if ps.2.2.2 = "o" then { ga with warn := ga.warn + 1 }
        else if ps.2.2.2 = "r" then { ga with bad := ga.bad + 1 }
        else ga
      | none => ga
    { animalsOut := acc.animalsOut ++ [out],
      groupAgg := aggSet acc.groupAgg g ga,
      okRows := acc.okRows + 1,
      badRows := acc.badRows }
  | _, _ =>
    { acc with badRows := acc.badRows + 1, animalsOut := acc.animalsOut ++ [failOut r] }

/-- The whole row loop. -/
def processRows (ctx : Ctx) (rows : List Row) : Accum :=
  rows.foldl (stepRow ctx) ⟨[], [], 0, 0⟩

/-- Ordering of the `animalsOut.sort` comparator (line 482):
`a.sortKey - b.sortKey || a.grupo.localeCompare(b.grupo) ||
a.animal.localeCompare(b.animal)` is non-positive. -/
def animalLe (a b : AnimalOut) : Prop :=
  lex3Le (fun x => x.sortKey) (fun x => x.grupo) (fun x => x.animal) a b = true

instance : DecidableRel animalLe :=
  fun _x _y => inferInstanceAs (Decidable (_ = true))

instance : IsTrans AnimalOut animalLe :=
  ⟨fun _ _ _ => lex3Le_trans⟩

instance : IsTotal AnimalOut animalLe :=
  ⟨fun x y => lex3Le_total _ _ _ x y⟩

/-- The sorted animal output of line 482 (JS `sort` is stable, as is
insertion sort). -/
def sortAnimals (l : List AnimalOut) : List AnimalOut :=
  l.insertionSort animalLe

/-- Model of one entry of `groupsOut` (lines 485–499): the accumulator
with the lazily derived averages (`none` when the matching count is
zero), the risk score and the composite sort key. -/
structure GroupOut where
  name : String
  n : Nat
  m : Nat
  f : Nat
  avgPesoM : Option ℚ
  avgPesoF : Option ℚ
  avgEstM : Option ℚ
  avgEstF : Option ℚ
  avgGmdM : Option ℚ
  avgGmdF : Option ℚ
  avgTemp : Option ℚ
  risk : ℚ
  sortKey : Int
  ok : Nat
  warn : Nat
  bad : Nat
deriving DecidableEq

/-- Model of the `map` body of lines 485–499. -/
def finalizeGroup (g : GroupAgg) : GroupOut :=
  { name := g.name, n := g.n, m := g.m, f := g.f,
    avgPesoM := if g.m = 0 then none else some (g.sumPesoM / (g.m : ℚ)),
    avgPesoF := if g.f = 0 then none else some (g.sumPesoF / (g.f : ℚ)),
    avgEstM := if g.m = 0 then none else some (g.sumEstM / (g.m : ℚ)),
    avgEstF := if g.f = 0 then none else some (g.sumEstF / (g.f : ℚ)),
    avgGmdM := if g.nGmdM = 0 then none else some (g.sumGmdM / (g.nGmdM : ℚ)),
    avgGmdF := if g.nGmdF = 0 then none else some (g.sumGmdF / (g.nGmdF : ℚ)),
    avgTemp := if g.nTemp = 0 then none else some (g.sumTemp / (g.nTemp : ℚ)),
    risk := if g.ok + g.warn + g.bad = 0 then 0
            else ((g.warn : ℚ) + (g.bad : ℚ)) / ((g.ok : ℚ) + (g.warn : ℚ) + (g.bad : ℚ)),
    sortKey := (g.bad : Int) * 1000 + (g.warn : Int) * 100 - (g.ok : Int) * 10,
    ok := g.ok, warn := g.warn, bad := g.bad }

/-- Ordering of the `groupsOut` comparator (line 500):
`b.sortKey - a.sortKey || b.risk - a.risk || a.name.localeCompare(b.name)`
is non-positive, i.e. descending composite key, then descending risk,
then ascending name. -/
def groupLe (a b : GroupOut) : Prop :=
  lex3Le (fun x => -x.sortKey) (fun x => -x.risk) (fun x => x.name) a b = true

instance : DecidableRel groupLe :=
  fun _x _y => inferInstanceAs (Decidable (_ = true))

instance : IsTrans GroupOut groupLe :=
  ⟨fun _ _ _ => lex3Le_trans⟩

instance : IsTotal GroupOut groupLe :=
  ⟨fun x y => lex3Le_total _ _ _ x y⟩

/-- The finalized, risk-ranked group list of lines 485–500 applied to
the accumulated `Object.values(groupAgg)`. -/
def sortGroups (l : List GroupAgg) : List GroupOut :=
  (l.map finalizeGroup).insertionSort groupLe

example :
    (processRows ⟨10, 11/10, fun _ => none, fun _ => none, fun _ => failPack⟩
      [⟨"A1", "M", "G1", none, none, some 0, some 300, none⟩]).okRows = 1 := by
  with_unfolding_all decide

/-! ### Forecast engine (`core.js` lines 542–618) -/

/-- Model of one row of `computeForecast` (lines 550–603).  `dateM` and
`dateF` keep the projected ready date as an epoch-day number (the source
immediately formats it with `fmtDate`). -/
structure FRow where
  name : String
  m : Nat
  f : Nat
  pM : Option ℚ
  pF : Option ℚ
  realM : Option ℚ
  realF : Option ℚ
  gmdUsedM : ℚ
  gmdUsedF : ℚ
  daysM : Option ℚ
  daysF : Option ℚ
  dateM : Option Int
  dateF : Option Int
  minDays : Option ℚ
  estadoTexto : String
  estadoClass : String
deriving DecidableEq

/-- Model of the `minDays` computation (lines 569–574): a `NaN` side is
taken as `Infinity`, and a `Infinity` minimum collapses back to `NaN`.
Equivalently, the minimum of the present sides, `none` when both are
missing. -/
def minDaysOf (dM dF : Option ℚ) : Option ℚ :=
  match dM, dF with
  | none, none => none
  | some a, none => some a
  | none, some b => some b
  | some a, some b => some (min a b)

/-- Model of the `map` body of `computeForecast` (lines 550–603) for
one finalized group, given the resolved targets and fallback rate. -/
def forecastRow (todayUTC : Int) (targetM targetF fallback : ℚ) (g : GroupOut) : FRow :=
  let pM := g.avgEstM
  let pF := g.avgEstF
  let realM := g.avgGmdM
  let realF := g.avgGmdF
  let gmdUsedM := pickGmdUsed realM fallback
  let gmdUsedF := pickGmdUsed realF fallback
  let daysM := calcDaysToTarget pM (some targetM) (some gmdUsedM)
  let daysF := calcDaysToTarget pF (some targetF) (some gmdUsedF)
  let dateM := daysM.map (fun d => todayUTC + ⌈d⌉)
  let dateF := daysF.map (fun d => todayUTC + ⌈d⌉)
  let stM := classifyReady pM (some targetM)
  let stF := classifyReady pF (some targetF)
  let minDays := minDaysOf daysM daysF
  let estado : String × String :=
    if 0 < g.m ∧ 0 < g.f then
      if stM.2 = "ok" ∧ stF.2 = "ok" then ("M e F prontos ✅", "ok")
      else if stM.2 = "ok" ∨ stF.2 = "ok" then ("Parcialmente pronto (misto)", "warn")
      else if stM.2 = "warn" ∨ stF.2 = "warn" then ("Quase lá (misto)", "warn")
      else ("Em engorda (misto)", "muted")
    else if 0 < g.m then (stM.1, stM.2)
    else if 0 < g.f then (stF.1, stF.2)
    else ("—", "muted")
  { name := g.name, m := g.m, f := g.f, pM := pM, pF := pF,
    realM := realM, realF := realF, gmdUsedM := gmdUsedM, gmdUsedF := gmdUsedF,
    daysM := daysM, daysF := daysF, dateM := dateM, dateF := dateF,
    minDays := minDays, estadoTexto := estado.1, estadoClass := estado.2 }

/-- The comparator's first key (lines 606–607):
`(Number.isFinite(minDays) && minDays === 0) ? 0 : 1`. -/
def forecastReadyBit (x : FRow) : Nat :=
  if x.minDays = some 0 then 0 else 1

/-- The comparator's second key (lines 610–611): `minDays` with `NaN`
replaced by `Infinity`, modelled in `WithTop ℚ`. -/
def mdInf (x : Option ℚ) : WithTop ℚ :=
  match x with
  | none => ⊤
  | some q => (q : WithTop ℚ)

/-- Ordering of the forecast-row comparator (lines 605–615): ready bit
ascending, then `minDays` ascending with missing values last, then name
ascending. -/
def forecastLe (a b : FRow) : Prop :=
  lex3Le forecastReadyBit (fun x => mdInf x.minDays) (fun x => x.name) a b = true

instance : DecidableRel forecastLe :=
  fun _x _y => inferInstanceAs (Decidable (_ = true))

instance : IsTrans FRow forecastLe :=
  ⟨fun _ _ _ => lex3Le_trans⟩

instance : IsTotal FRow forecastLe :=
  ⟨fun x y => lex3Le_total _ _ _ x y⟩

/-- Model of `computeForecast` on the finalized group list, with the
targets and fallback rate already resolved to numbers (lines 546–548
substitute the defaults `620`/`520`/config fallback beforehand). -/
def computeForecast (todayUTC : Int) (groups : List GroupOut)
    (targetM targetF fallback : ℚ) : List FRow :=
  (groups.map (forecastRow todayUTC targetM targetF fallback)).insertionSort forecastLe

/-! ### Module-level evaluation of the `Core` API object
(`core.js` lines 621–677)

The module body runs inside a strict-mode IIFE.  Evaluating the `Core`
object literal resolves each shorthand property identifier in source
order against the declarations in scope (the module's own `const`s and
functions, and the host globals); an identifier that resolves nowhere
raises a `ReferenceError`, aborting the module before the final
`window.Core = Core` assignment executes. -/

/-- Names declared in the module scope: every `const` and `function` of
the IIFE body, plus the host globals the file can see. -/
def moduleScopeNames : List String :=
  ["STORAGE_KEY", "METEO_CACHE_KEY", "DEFAULTS", "clean", "escapeHtml",
   "parseNumber", "parseDatePT", "fmtDate", "isoDateUTC", "addDaysUTC",
   "daysBetweenUTC", "detectDelimiter", "safeFloat", "safeInt",
   "performanceStatus", "confidenceByDays", "factorSexo", "factorMaturidade",
   "factorFromTempMean", "fetchWithTimeout", "loadMeteoCache", "saveMeteoCache",
   "getTempMeanForPeriod", "preloadMeteoPeriods", "pickGmdUsed", "classifyReady",
   "calcDaysToTarget", "getEmptyState", "loadState", "saveState", "clearState",
   "ensureState", "processCSVText", "buildAlerts", "computeForecast", "Core",
   "window", "fetch", "AbortController", "localStorage", "setTimeout",
   "clearTimeout", "Promise", "Date", "Math", "JSON", "Object", "Number",
   "String", "Array", "Map", "Set", "Error", "parseFloat", "Infinity", "NaN"]

/-- The shorthand property identifiers of the `Core` object literal, in
evaluation (source) order (lines 621–674; method and getter bodies are
not evaluated at literal-creation time). -/
def coreShorthandRefs : List String :=
  ["DEFAULTS", "loadState", "saveState", "clearState", "escapeHtml",
   "safeFloat", "safeInt", "fmtDate", "detectDelimiter", "parseNumber",
   "buildAlerts", "computeForecast", "buildSmartPlanning"]

/-- The first shorthand identifier that resolves to no declaration —
the one whose evaluation raises `ReferenceError`. -/
def firstUnresolved (scope refs : List String) : Option String :=
  refs.find? (fun r => !(scope.contains r))

/-- Model of the module evaluation result: `some` the exposed API names
when the `Core` literal evaluates, `none` when a `ReferenceError`
aborts the module before `window.Core = Core` runs. -/
def windowCoreAfterLoad : Option (List String) :=
  match firstUnresolved moduleScopeNames coreShorthandRefs with
  | some _ => none
  | none => some coreShorthandRefs

/-! ## Claims -/

/-- Helper: a header name that does not occur falls back to the fixed
position. -/
theorem jsIdxOr_of_not_mem {header : List String} {name : String}
    (h : name ∉ header) (fb : Nat) : jsIdxOr header name fb = fb := by
  unfold jsIdxOr
  have hnone : header.findIdx? (· == name) = none := by
    rw [List.findIdx?_eq_none_iff]
    intro x hx
    rw [beq_eq_false_iff_ne]
    exact fun e => h (e ▸ hx)
  rw [hnone]

/-- C10: the `Core` API object literal references `buildSmartPlanning`,
which is declared nowhere in the module scope, so evaluating the
literal raises a `ReferenceError` and `window.Core` is never
assigned — no part of the public API is exposed. -/
theorem c10_core_never_exposed :
    "buildSmartPlanning" ∈ coreShorthandRefs ∧
    "buildSmartPlanning" ∉ moduleScopeNames ∧
    firstUnresolved moduleScopeNames coreShorthandRefs = some "buildSmartPlanning" ∧
    windowCoreAfterLoad = none := by
  decide

/-- C4 counterexample: with no recognised header name, the seven
fallback positions are `0,2,3,4,5,6,7` — not the consecutive positions
`0`–`6` claimed (the sex column falls back to position 2, not 1). -/
theorem c4_counterexample :
    colList (resolveCols []) ≠ [0, 1, 2, 3, 4, 5, 6] ∧
    colList (resolveCols []) = [0, 2, 3, 4, 5, 6, 7] := by
  decide

/-- C4 (amended): each header name absent from the header line makes
its column fall back to the fixed position `0,2,3,4,5,6,7`
respectively — ascending and in the stated field order, but skipping
position 1 rather than occupying `0`–`6` consecutively. -/
theorem c4_fallback_positions (header : List String) :
    ("animal_id" ∉ header → (resolveCols header).animal = 0) ∧
    ("sexo" ∉ header → (resolveCols header).sexo = 2) ∧
    ("grupo" ∉ header → (resolveCols header).grupo = 3) ∧
    ("data_peso_anterior" ∉ header → (resolveCols header).dant = 4) ∧
    ("peso_anterior" ∉ header → (resolveCols header).pant = 5) ∧
    ("data_peso_atual" ∉ header → (resolveCols header).datual = 6) ∧
    ("peso_atual" ∉ header → (resolveCols header).patual = 7) :=
  ⟨fun h => jsIdxOr_of_not_mem h 0, fun h => jsIdxOr_of_not_mem h 2,
   fun h => jsIdxOr_of_not_mem h 3, fun h => jsIdxOr_of_not_mem h 4,
   fun h => jsIdxOr_of_not_mem h 5, fun h => jsIdxOr_of_not_mem h 6,
   fun h => jsIdxOr_of_not_mem h 7⟩

/-- C4 witness: a concrete header lacking `sexo` resolves the sex
column to position 2. -/
theorem c4_witness :
    "sexo" ∉ ["animal_id"] ∧ (resolveCols ["animal_id"]).sexo = 2 :=
  ⟨by decide, (c4_fallback_positions ["animal_id"]).2.1 (by decide)⟩

/-- C8 counterexample: `31-12/2024` mixes a hyphen and a slash, so it is
in neither of the two forms the claim allows, yet the parser accepts
it (each separator of the day-first regex is independently `-` or `/`). -/
theorem c8_counterexample :
    specDateFormats "31-12/2024" = false ∧
    (parseDatePT "31-12/2024").isSome = true := by
  decide

/-- C8 (amended): date parsing accepts exactly the trimmed 10-character
shapes matched by the two regexes — `YYYY-MM-DD`, and the day-first
form whose two separators are each independently `-` or `/` (so mixed
separators are accepted too); every accepted string is built as a UTC
midnight via the `Date.UTC` model, and every other string yields the
explicit `none` with no exception. -/
theorem c8_date_parsing (s : String) :
    (∀ y mo d, matchYMD (trimChars s.data) = some (y, mo, d) →
      parseDatePT s = some (makeDayUTC (y : Int) ((mo : Int) - 1) (d : Int))) ∧
    (∀ d mo y, matchYMD (trimChars s.data) = none →
      matchDMY (trimChars s.data) = some (d, mo, y) →
      parseDatePT s = some (makeDayUTC (y : Int) ((mo : Int) - 1) (d : Int))) ∧
    (matchYMD (trimChars s.data) = none → matchDMY (trimChars s.data) = none →
      parseDatePT s = none) := by
  refine ⟨?_, ?_, ?_⟩
  · intro y mo d h
    simp [parseDatePT, h]
  · intro d mo y h1 h2
    simp [parseDatePT, h1, h2]
  · intro h1 h2
    simp [parseDatePT, h1, h2]

/-- C8 witness: the ISO form at a concrete date. -/
theorem c8_witness :
    matchYMD (trimChars "2024-01-05".data) = some (2024, 1, 5) ∧
    parseDatePT "2024-01-05" = some (makeDayUTC (2024 : Int) ((1 : Int) - 1) (5 : Int)) :=
  ⟨by decide, (c8_date_parsing "2024-01-05").1 2024 1 5 (by decide)⟩

/-- C9: a string matching the digit patterns never yields the "no date"
result, even when it denotes an out-of-range calendar date; the value
rolls over into the adjacent month or year (`31-02-2024` parses as
2024-03-02, and month 13 of `15-13-2024` parses as 2025-01-15). -/
theorem c9_rollover (s : String) :
    (∀ t, matchDMY (trimChars s.data) = some t → parseDatePT s ≠ none) ∧
    (∀ t, matchYMD (trimChars s.data) = some t → parseDatePT s ≠ none) ∧
    parseDatePT "31-02-2024" = some (daysFromCivil 2024 3 2) ∧
    parseDatePT "15-13-2024" = some (daysFromCivil 2025 1 15) := by
  refine ⟨?_, ?_, by decide, by decide⟩
  · rintro ⟨d, mo, y⟩ h
    cases hy : matchYMD (trimChars s.data) with
    | some v =>
      obtain ⟨y', mo', d'⟩ := v
      simp [parseDatePT, hy]
    | none => simp [parseDatePT, hy, h]
  · rintro ⟨y, mo, d⟩ h
    simp [parseDatePT, h]

/-- C9 witness: the February rollover instance. -/
theorem c9_witness :
    matchDMY (trimChars "31-02-2024".data) = some (31, 2, 2024) ∧
    parseDatePT "31-02-2024" ≠ none :=
  ⟨by decide, (c9_rollover "31-02-2024").1 (31, 2, 2024) (by decide)⟩

/-- C2: the growth-rate sample equals
`(currentWeight − previousWeight) / daysBetween` exactly when both
dates and both weights parsed and the elapsed days are strictly
positive; it is undefined when any field is missing or
`daysBetween ≤ 0`. -/
theorem c2_gmd_sample (dAnt dAtual : Option Int) (pAnt pAtual : Option ℚ) :
    (∀ da dc pa pc, dAnt = some da → dAtual = some dc → pAnt = some pa →
      pAtual = some pc → 0 < daysBetweenUTC da dc →
      computeGmdInd dAnt pAnt dAtual pAtual =
        some ((pc - pa) / ((daysBetweenUTC da dc : Int) : ℚ))) ∧
    ((dAnt = none ∨ dAtual = none ∨ pAnt = none ∨ pAtual = none ∨
      (∃ da dc, dAnt = some da ∧ dAtual = some dc ∧ daysBetweenUTC da dc ≤ 0)) →
      computeGmdInd dAnt pAnt dAtual pAtual = none) := by
  constructor
  · rintro da dc pa pc rfl rfl rfl rfl h
    simp [computeGmdInd, h]
  · intro h
    rcases dAnt with _ | da <;> rcases dAtual with _ | dc <;>
      rcases pAnt with _ | pa <;> rcases pAtual with _ | pc <;>
      simp [computeGmdInd]
    simp at h
    exact h

/-- C2 witness: a concrete 60-day, 60 kg gain gives the sample, and a
missing previous date gives `none`. -/
theorem c2_witness :
    0 < daysBetweenUTC 0 60 ∧
    computeGmdInd (some 0) (some 400) (some 60) (some 460) =
      some ((460 - 400) / ((daysBetweenUTC 0 60 : Int) : ℚ)) ∧
    computeGmdInd none (some 400) (some 60) (some 460) = none :=
  ⟨by decide,
   (c2_gmd_sample (some 0) (some 60) (some 400) (some 460)).1 0 60 400 460
     rfl rfl rfl rfl (by decide),
   (c2_gmd_sample none (some 60) (some 400) (some 460)).2 (Or.inl rfl)⟩

/-- Helper: after any resolution the cache holds the returned pack
under the requested key. -/
theorem getTemp_lookup_after (cache : List (String × MeteoPack)) (key : String)
    (o : FetchOutcome) :
    ((getTempMeanForPeriod cache key o).2.1).lookup key =
      some (getTempMeanForPeriod cache key o).1 := by
  unfold getTempMeanForPeriod
  cases h : cache.lookup key with
  | some p => simp [h]
  | none => simp [h, List.lookup]

/-- C3: resolving the same range twice returns the identical pack both
times and issues at most one request; a cache hit performs no request
and returns the stored entry; a failure or empty series on a miss
stores the `⟨none, 0.95⟩` entry, which every later resolution of the
range returns. -/
theorem c3_weather_cache (cache : List (String × MeteoPack)) (key : String)
    (o1 o2 : FetchOutcome) :
    (getTempMeanForPeriod cache key o1).1 =
      (getTempMeanForPeriod (getTempMeanForPeriod cache key o1).2.1 key o2).1 ∧
    ¬ ((getTempMeanForPeriod cache key o1).2.2 = true ∧
       (getTempMeanForPeriod (getTempMeanForPeriod cache key o1).2.1 key o2).2.2 = true) ∧
    (∀ p, cache.lookup key = some p →
      (getTempMeanForPeriod cache key o1).1 = p ∧
      (getTempMeanForPeriod cache key o1).2.2 = false) ∧
    (cache.lookup key = none → (o1 = .failure ∨ o1 = .success []) →
      (getTempMeanForPeriod cache key o1).1 = failPack ∧
      (getTempMeanForPeriod (getTempMeanForPeriod cache key o1).2.1 key o2).1 = failPack) := by
  have hfix := getTemp_lookup_after cache key o1
  have key2 : ∀ o, getTempMeanForPeriod (getTempMeanForPeriod cache key o1).2.1 key o =
      ((getTempMeanForPeriod cache key o1).1,
       (getTempMeanForPeriod cache key o1).2.1, false) := by
    intro o
    revert hfix
    generalize getTempMeanForPeriod cache key o1 = x
    intro hfix
    unfold getTempMeanForPeriod
    rw [hfix]
  refine ⟨?_, ?_, ?_, ?_⟩
  · rw [key2]
  · rintro ⟨-, h2⟩
    rw [key2] at h2
    simp at h2
  · intro p hp
    unfold getTempMeanForPeriod
    rw [hp]
    exact ⟨rfl, rfl⟩
  · intro hmiss ho
    have h1 : (getTempMeanForPeriod cache key o1).1 = failPack := by
      rcases ho with rfl | rfl <;> simp [getTempMeanForPeriod, hmiss, failPack]
    refine ⟨h1, ?_⟩
    rw [key2]
    exact h1

/-- C3 witness: a concrete failed resolution on an empty cache, and the
hit that follows it. -/
theorem c3_witness :
    (([] : List (String × MeteoPack)).lookup "2024-01-05|2024-01-15" = none) ∧
    (getTempMeanForPeriod [] "2024-01-05|2024-01-15" .failure).1 = failPack ∧
    (getTempMeanForPeriod
      (getTempMeanForPeriod [] "2024-01-05|2024-01-15" .failure).2.1
      "2024-01-05|2024-01-15" (.success [18])).1 = failPack :=
  ⟨rfl,
   ((c3_weather_cache [] "2024-01-05|2024-01-15" .failure (.success [18])).2.2.2
     rfl (Or.inl rfl)).1,
   ((c3_weather_cache [] "2024-01-05|2024-01-15" .failure (.success [18])).2.2.2
     rfl (Or.inl rfl)).2⟩

def c1ctx : Ctx := ⟨10, 11 / 10, fun _ => some 1, fun _ => some 1, fun _ => ⟨some 15, 1⟩⟩

def c1row : Row := ⟨"A1", "M", "G1", some (-10), some 320, some 0, some 280, some (-4)⟩

def c1acc : Accum := ⟨[], [], 0, 0⟩

/-- C1 counterexample: a finite but negative sample (−4 kg/day over the
10 days between the weigh-ins) is used directly as the base rate — the
projection is 240 kg — whereas the claimed rule (own sample only when
strictly positive) would take the group estimate 1 and project 290 kg. -/
theorem c1_counterexample :
    ((stepRow c1ctx c1acc c1row).animalsOut.map (fun x => x.estKg)) = [some 240] ∧
    (280 : ℚ) +
        gmdBaseSpec c1row.gmdInd (c1ctx.gmdEstimativaGrupo c1row.grupo) c1ctx.fallbackGmd *
          factorSexo c1row.sexo * factorMaturidade 280 c1row.sexo * (c1ctx.meteo 0).factor *
          ((daysBetweenUTC 0 c1ctx.todayUTC : Int) : ℚ) = 290 ∧
    (240 : ℚ) ≠ 290 := by
  with_unfolding_all decide

/-- C1 (amended): for every processed row (current date and weight both
parse) the projected weight uses the base rate of `gmdBaseCode`: the
animal's own sample whenever it is a number — including zero and
negative samples — otherwise the group's historical estimate for that
group, otherwise the global fallback constant. -/
theorem c1_base_rate (ctx : Ctx) (acc : Accum) (r : Row) (dA : Int) (pA : ℚ)
    (hd : r.dAtual = some dA) (hp : r.pAtual = some pA) :
    ∃ out : AnimalOut,
      (stepRow ctx acc r).animalsOut = acc.animalsOut ++ [out] ∧
      out.estKg = some (pA +
        gmdBaseCode r.gmdInd (ctx.gmdEstimativaGrupo r.grupo) ctx.fallbackGmd *
          factorSexo r.sexo * factorMaturidade pA r.sexo * (ctx.meteo dA).factor *
          ((daysBetweenUTC dA ctx.todayUTC : Int) : ℚ)) := by
  rcases r with ⟨animal, sexo, grupo, dAnt, pAnt, dAtual, pAtual, gmdInd⟩
  dsimp only at hd hp
  subst hd
  subst hp
  exact ⟨_, rfl, rfl⟩

/-- C1 witness: the amended rule at the concrete row of the
counterexample. -/
theorem c1_witness :
    ∃ out : AnimalOut,
      (stepRow c1ctx c1acc c1row).animalsOut = c1acc.animalsOut ++ [out] ∧
      out.estKg = some ((280 : ℚ) +
        gmdBaseCode c1row.gmdInd (c1ctx.gmdEstimativaGrupo c1row.grupo) c1ctx.fallbackGmd *
          factorSexo c1row.sexo * factorMaturidade 280 c1row.sexo * (c1ctx.meteo 0).factor *
          ((daysBetweenUTC 0 c1ctx.todayUTC : Int) : ℚ)) :=
  c1_base_rate c1ctx c1acc c1row 0 280 rfl rfl

/-- C6: a group's risk equals `(warn+bad)/(ok+warn+bad)` when classified
rows exist and `0` otherwise (hence `1` when every classified animal is
Delayed), the composite key is `1000·bad + 100·warn − 10·ok`, and the
group output is sorted by that key descending, then risk descending,
then name ascending. -/
theorem c6_group_risk_ranking :
    (∀ g : GroupAgg, (finalizeGroup g).risk =
        if g.ok + g.warn + g.bad = 0 then 0
        else ((g.warn : ℚ) + (g.bad : ℚ)) /
          ((g.ok : ℚ) + (g.warn : ℚ) + (g.bad : ℚ))) ∧
    (∀ g : GroupAgg, g.ok = 0 → g.warn = 0 → 0 < g.bad → (finalizeGroup g).risk = 1) ∧
    (∀ g : GroupAgg, (finalizeGroup g).sortKey =
        (g.bad : Int) * 1000 + (g.warn : Int) * 100 - (g.ok : Int) * 10) ∧
    (∀ l : List GroupAgg, (sortGroups l).Sorted groupLe ∧
        (sortGroups l).Perm (l.map finalizeGroup)) ∧
    (∀ a b : GroupOut, groupLe a b ↔
        (b.sortKey < a.sortKey ∨ (a.sortKey = b.sortKey ∧
          (b.risk < a.risk ∨ (a.risk = b.risk ∧ a.name ≤ b.name))))) := by
  refine ⟨fun g => rfl, ?_, fun g => rfl, ?_, ?_⟩
  · intro g h1 h2 h3
    have hb : (g.bad : ℚ) ≠ 0 := Nat.cast_ne_zero.2 (Nat.pos_iff_ne_zero.1 h3)
    simp [finalizeGroup, h1, h2, Nat.pos_iff_ne_zero.1 h3, div_self hb]
  · intro l
    exact ⟨List.sorted_insertionSort groupLe _, List.perm_insertionSort groupLe _⟩
  · intro a b
    unfold groupLe
    rw [lex3Le_iff]
    simp [neg_lt_neg_iff, neg_inj]

def c6agg : GroupAgg := ⟨"G", 3, 0, 0, 0, 0, 0, 0, 0, 0, 0, 0, 0, 0, 0, 0, 3⟩

/-- C6 witness: a group whose three classified animals are all Delayed
has risk 1, and the empty sort is sorted. -/
theorem c6_witness :
    (finalizeGroup c6agg).risk = 1 ∧ (sortGroups []).Sorted groupLe :=
  ⟨c6_group_risk_ranking.2.1 c6agg rfl rfl (by decide),
   (c6_group_risk_ranking.2.2.2.1 []).1⟩

/-- Modelled from the spec: one sex is "at or above its target". -/
def atOrAboveTarget (p : Option ℚ) (t : ℚ) : Bool :=
  match p with
  | some v => decide (t ≤ v)
  | none => false

/-- Modelled from the spec: "fully-ready" — both sexes at or above
their respective targets. -/
def fullyReadySpec (r : FRow) (targetM targetF : ℚ) : Bool :=
  atOrAboveTarget r.pM targetM && atOrAboveTarget r.pF targetF

def c7gA : GroupOut :=
  ⟨"A", 2, 1, 1, none, none, some 620, some 400, some 1, some 1, none, 0, 0, 0, 0, 0⟩

def c7gB : GroupOut :=
  ⟨"B", 2, 1, 1, none, none, some 620, some 520, some 1, some 1, none, 0, 0, 0, 0, 0⟩

/-- C7 counterexample: group A (males at target, females 120 days away,
so not fully ready) sorts before the fully-ready group B — the first
sort bucket is "minimum days-to-target equals 0", not "fully ready". -/
theorem c7_counterexample :
    ((computeForecast 0 [c7gA, c7gB] 620 520 (11 / 10)).map
      (fun x => (x.name, fullyReadySpec x 620 520))) = [("A", false), ("B", true)] := by
  with_unfolding_all decide

/-- C7 (amended): the forecast output is ordered by the ready bit
(`minDays = 0`, i.e. at least one sex with a positive usable rate at or
above its target) first, then ascending by the minimum of the two
sexes' days-to-target with undefined treated as infinite, then
alphabetically by name. -/
theorem c7_forecast_ordering :
    (∀ (today : Int) (groups : List GroupOut) (tM tF fb : ℚ),
      (computeForecast today groups tM tF fb).Sorted forecastLe ∧
      (computeForecast today groups tM tF fb).Perm
        (groups.map (forecastRow today tM tF fb))) ∧
    (∀ a b : FRow, forecastLe a b ↔
      (forecastReadyBit a < forecastReadyBit b ∨
       (forecastReadyBit a = forecastReadyBit b ∧
        (mdInf a.minDays < mdInf b.minDays ∨
         (mdInf a.minDays = mdInf b.minDays ∧ a.name ≤ b.name))))) ∧
    (∀ x : FRow, forecastReadyBit x = 0 ↔ x.minDays = some 0) ∧
    (∀ p t g : Option ℚ, calcDaysToTarget p t g = some 0 ↔
      (∃ pv tv gv, p = some pv ∧ t = some tv ∧ g = some gv ∧ 0 < gv ∧ tv ≤ pv)) := by
  refine ⟨?_, ?_, ?_, ?_⟩
  · intro today groups tM tF fb
    exact ⟨List.sorted_insertionSort forecastLe _, List.perm_insertionSort forecastLe _⟩
  · intro a b
    unfold forecastLe
    rw [lex3Le_iff]
  · intro x
    unfold forecastReadyBit
    split_ifs with h
    · simp [h]
    · simp [h]
  · intro p t g
    rcases p with _ | pv
    · simp [calcDaysToTarget]
    rcases t with _ | tv
    · simp [calcDaysToTarget]
    rcases g with _ | gv
    · simp [calcDaysToTarget]
    simp only [calcDaysToTarget]
    split_ifs with h1 h2
    · simp [not_lt.2 h1]
    · simp [not_le.1 h1, h2]
    · have hne : (tv - pv) / gv ≠ 0 :=
        div_ne_zero (sub_ne_zero_of_ne (ne_of_gt (not_le.1 h2))) (ne_of_gt (not_le.1 h1))
      simp [hne, h2]

/-- C7 witness: a singleton forecast is sorted, and the ready bit of
the concrete fully-ready group is 0 exactly because its `minDays` is 0. -/
theorem c7_witness :
    (computeForecast 0 [c7gA] 620 520 1).Sorted forecastLe ∧
    (forecastReadyBit (forecastRow 0 620 520 1 c7gB) = 0 ↔
      (forecastRow 0 620 520 1 c7gB).minDays = some 0) :=
  ⟨(c7_forecast_ordering.1 0 [c7gA] 620 520 1).1,
   c7_forecast_ordering.2.2.1 (forecastRow 0 620 520 1 c7gB)⟩

def c5ctx : Ctx := ⟨10, 11 / 10, fun _ => none, fun _ => none, fun _ => failPack⟩

def c5row : Row := ⟨"A1", "M", "G1", none, none, none, some 300, none⟩

def c5acc : Accum := ⟨[], [], 0, 0⟩

def c5out2 : AnimalOut := { failOut c5row with sortKey := 100, animal := "B2" }

def c5list : List AnimalOut := [failOut c5row, c5out2]

/-- C5 counterexample: the incomplete-row result carries the plain
placeholder label `—`, not the `— (sem histórico)` ("no history")
label the claim states. -/
theorem c5_counterexample :
    ((stepRow c5ctx c5acc c5row).animalsOut.map (fun x => x.estado)) = ["—"] ∧
    ("—" : String) ≠ "— (sem histórico)" := by
  decide

/-- Helper: each loop iteration appends exactly one animal result. -/
theorem stepRow_animalsOut_length (ctx : Ctx) (acc : Accum) (r : Row) :
    (stepRow ctx acc r).animalsOut.length = acc.animalsOut.length + 1 := by
  rcases hd : r.dAtual with _ | dA <;> rcases hp : r.pAtual with _ | pA <;>
    simp [stepRow, hd, hp]

/-- Helper: the loop emits one animal result per input row. -/
theorem processRows_length (ctx : Ctx) (rows : List Row) :
    (processRows ctx rows).animalsOut.length = rows.length := by
  suffices h : ∀ acc : Accum, ((rows.foldl (stepRow ctx) acc).animalsOut).length =
      acc.animalsOut.length + rows.length by
    simpa [processRows] using h ⟨[], [], 0, 0⟩
  induction rows with
  | nil => intro acc; simp
  | cons r t ih =>
    intro acc
    simp only [List.foldl_cons]
    rw [ih, stepRow_animalsOut_length]
    simp only [List.length_cons]
    omega

/-- C5 (amended): a row lacking a parseable current date or current
weight increments only the failure count and appends an `AnimalOut`
with label `—` (not `— (sem histórico)`), muted class, neutral bucket
`none`, sort key 99 and no projection, leaving the group aggregates and
the success count unchanged; classified animals have sort rank at most
3 while in the sorted output everything after a sort-key-99 entry has
sort key at least 99, so failed rows appear after all classified
animals; and sorting keeps one output row per input row. -/
theorem c5_incomplete_rows :
    (∀ (ctx : Ctx) (acc : Accum) (r : Row), (r.dAtual = none ∨ r.pAtual = none) →
      stepRow ctx acc r = { acc with
        badRows := acc.badRows + 1
        animalsOut := acc.animalsOut ++ [failOut r] } ∧
      (failOut r).estado = "—" ∧ (failOut r).estadoClass = "muted" ∧
      (failOut r).bucket = "none" ∧ (failOut r).sortKey = 99 ∧ (failOut r).estKg = none) ∧
    (∀ gi gm : Option ℚ, (performanceStatus gi gm).2.2.2 ≠ "none" →
      (performanceStatus gi gm).2.2.1 ≤ 3) ∧
    (∀ (ctx : Ctx) (rows : List Row),
      (sortAnimals (processRows ctx rows).animalsOut).length = rows.length) ∧
    (∀ (l : List AnimalOut) (i j : Nat) (x y : AnimalOut), i < j →
      (sortAnimals l).get? i = some x → (sortAnimals l).get? j = some y →
      x.sortKey = 99 → 99 ≤ y.sortKey) := by
  refine ⟨?_, ?_, ?_, ?_⟩
  · rintro ctx acc r (h | h)
    · refine ⟨?_, rfl, rfl, rfl, rfl, rfl⟩
      rcases hp : r.pAtual with _ | p <;> simp [stepRow, h, hp]
    · refine ⟨?_, rfl, rfl, rfl, rfl, rfl⟩
      rcases hd : r.dAtual with _ | d <;> simp [stepRow, h, hd]
  · intro gi gm h
    rcases gi with _ | gi
    · simp [performanceStatus] at h
    rcases gm with _ | gm
    · simp [performanceStatus] at h
    by_cases h1 : gm ≤ 0
    · simp [performanceStatus, h1] at h
    by_cases h2 : (95 : ℚ) / 100 ≤ gi / gm
    · simp [performanceStatus, h1, h2]
    by_cases h3 : (80 : ℚ) / 100 ≤ gi / gm
    · simp [performanceStatus, h1, h2, h3]
    · simp [performanceStatus, h1, h2, h3]
  · intro ctx rows
    unfold sortAnimals
    rw [(List.perm_insertionSort animalLe _).length_eq]
    exact processRows_length ctx rows
  · intro l i j x y hij hx hy h99
    unfold sortAnimals at hx hy
    obtain ⟨hi, hgi⟩ := List.get?_eq_some.1 hx
    obtain ⟨hj, hgj⟩ := List.get?_eq_some.1 hy
    have hs := (List.sorted_insertionSort animalLe l).rel_get_of_lt
      (show (⟨i, hi⟩ : Fin _) < (⟨j, hj⟩ : Fin _) from hij)
    rw [hgi, hgj] at hs
    unfold animalLe at hs
    rw [lex3Le_iff] at hs
    rcases hs with hlt | ⟨heq, -⟩
    · rw [h99] at hlt
      omega
    · rw [h99] at heq
      omega

/-- C5 witness: the concrete incomplete row, the length preservation,
and the after-all-classified bound at concrete positions. -/
theorem c5_witness :
    stepRow c5ctx c5acc c5row = { c5acc with
        badRows := c5acc.badRows + 1
        animalsOut := c5acc.animalsOut ++ [failOut c5row] } ∧
    (sortAnimals (processRows c5ctx [c5row]).animalsOut).length = [c5row].length ∧
    99 ≤ c5out2.sortKey :=
  ⟨(c5_incomplete_rows.1 c5ctx c5acc c5row (Or.inl rfl)).1,
   c5_incomplete_rows.2.2.1 c5ctx [c5row],
   c5_incomplete_rows.2.2.2 c5list 0 1 (failOut c5row) c5out2
     (by decide) (by decide) (by decide) rfl⟩

end Bovinos
